import Mathlib

/-
Verification of the opsglobe network diagnostics & reachability engine.

The development shallowly embeds two route handlers:
  * the node-status route (`checkServerStatus`, its GET fan-out over the
    stored node list) and
  * the diagnostics dispatcher (`POST /api/tools` with its nslookup, ping,
    port and ssl branches).
Network I/O is made explicit: each socket attempt is parameterised by the
terminal event the network delivers for it (connect after d ms, error after
d ms, or silence), and each handler is a total function from request data
and network behaviour to its response value.
-/

/-- Terminal event of one raw TCP connect attempt, as seen by the socket
event handlers in the source: `connect` firing `elapsedMs` milliseconds
after the attempt started, the idle timer firing (`timedOut`), an `error`
event carrying a message, or the `socket.connect` call itself throwing
synchronously. -/
inductive ConnectEvent where
  | connected (elapsedMs : Nat)
  | timedOut
  | errored (msg : String)
  | connectThrew
  deriving DecidableEq, Repr

/-- `checkServerStatus` from the node-status route: one TCP connect to port
80 under a 1500 ms idle timeout, wrapped in a promise that always resolves —
the `connect` handler destroys the socket and resolves `"online"`; the
`timeout` and `error` handlers destroy the socket and resolve `"offline"`;
a synchronous throw from `socket.connect` resolves `"offline"`. The promise
never rejects; the resolved value carries no latency and no reason. -/
def checkServerStatus : ConnectEvent → String
  | .connected _ => "online"
  | .timedOut => "offline"
  | .errored _ => "offline"
  | .connectThrew => "offline"

/-- The fixed probe port of `checkServerStatus` (`const port = 80`). -/
def checkServerStatusPort : Nat := 80

/-- The idle timeout `socket.setTimeout(1500)` of `checkServerStatus`. -/
def checkServerStatusTimeoutMs : Nat := 1500

/-- One stored node record from `utils/nodes.json` as the GET handler sees
it: the fields the POST handler writes, plus `extra` for any further JSON
field a record may carry. The handler treats records as opaque values and
spreads them unchanged, so the value types of the untouched fields are
irrelevant to its behaviour. -/
structure Node where
  id : String
  name : String
  ip : String
  lat : String
  lng : String
  region : String
  status : String
  extra : List (String × String)
  deriving DecidableEq, Repr

/-- Body of the GET fan-out for one node: `{ ...node, status }` — every
stored field is spread unchanged and only `status` is overwritten with the
outcome of `checkServerStatus(node.ip)`. `net` gives, per probed host, the
terminal socket event of this batch's connect attempt to that host. -/
def probeOne (net : String → ConnectEvent) (node : Node) : Node :=
  { node with status := checkServerStatus (net node.ip) }

/-- The GET fan-out `Promise.all(nodes.map(async (node) => ...))`.
`Promise.all` fills slot i of its result array with the i-th promise's
value whatever the completion order, and since `checkServerStatus` always
resolves no element can reject the batch; the combinator is therefore a
positional map over the stored list. -/
def probeAll (net : String → ConnectEvent) (nodes : List Node) : List Node :=
  nodes.map (probeOne net)

/- ===== Theorems: C1, C2, C9 ===== -/

/-- C1: the GET fan-out returns exactly as many results as stored targets,
the i-th result is the probe outcome of the i-th target, and the result in
slot i depends only on the network behaviour at that target's own host —
another target failing or timing out never aborts or corrupts it. -/
theorem GET_fanout_length_order_isolated (net net' : String → ConnectEvent)
    (nodes : List Node) (i : Nat) (hi : i < nodes.length)
    (hagree : net (nodes[i].ip) = net' (nodes[i].ip)) :
    (probeAll net nodes).length = nodes.length ∧
    (probeAll net nodes)[i]? = some (probeOne net nodes[i]) ∧
    (probeAll net nodes)[i]? = (probeAll net' nodes)[i]? := by
  refine ⟨List.length_map .., ?_, ?_⟩
  · simp [probeAll, List.getElem?_eq_getElem hi]
  · simp [probeAll, List.getElem?_eq_getElem hi, probeOne, hagree]

def nodeW1 : Node := ⟨"n1", "Alpha", "10.0.0.1", "0", "0", "EU", "PENDING", []⟩

def nodeW2 : Node :=
  ⟨"n2", "Beta", "10.0.0.2", "0", "0", "US", "PENDING", [("owner", "ops")]⟩

def netW : String → ConnectEvent :=
  fun h => if h = "10.0.0.1" then .timedOut else .connected 12

def netW' : String → ConnectEvent :=
  fun h => if h = "10.0.0.1" then .errored "EHOSTUNREACH" else .connected 12

/-- Witness for C1 at a concrete two-node batch: under `netW` the first
host times out and the second connects; under `netW'` the first host
errors instead. Slot 1 is the second node's probe either way. -/
theorem GET_fanout_witness :
    (probeAll netW [nodeW1, nodeW2]).length = 2 ∧
    (probeAll netW [nodeW1, nodeW2])[1]? = some (probeOne netW nodeW2) ∧
    (probeAll netW [nodeW1, nodeW2])[1]? = (probeAll netW' [nodeW1, nodeW2])[1]? := by
  simpa using
    GET_fanout_length_order_isolated netW netW' [nodeW1, nodeW2] 1 (by decide)
      (by decide)

/-- C2 counterexample: the prober's result is the bare string `"offline"`
both when the idle timer fires and when the connection is actively
refused — the two offline causes are not distinguishable in the result,
and the result carries no latency and no reason field at all. -/
theorem checkServerStatus_offline_indistinct :
    checkServerStatus .timedOut = checkServerStatus (.errored "ECONNREFUSED") ∧
    checkServerStatus .timedOut = "offline" := ⟨rfl, rfl⟩

/-- C2 amended: `checkServerStatus` resolves `"online"` on a successful
connect (recording no latency) and resolves `"offline"` on timeout, on
connection error and on a synchronous connect failure alike, with no
reason recorded, so the offline causes are indistinguishable. -/
theorem checkServerStatus_amended (t : Nat) (m : String) :
    checkServerStatus (.connected t) = "online" ∧
    checkServerStatus .timedOut = "offline" ∧
    checkServerStatus (.errored m) = "offline" ∧
    checkServerStatus .connectThrew = "offline" := ⟨rfl, rfl, rfl, rfl⟩

/-- C9: `{ ...node, status }` preserves every stored field of the record
unchanged — id, name, ip, lat, lng, region and any extra field — and only
overwrites `status` with the probe outcome. -/
theorem GET_preserves_fields (net : String → ConnectEvent) (node : Node) :
    (probeOne net node).id = node.id ∧
    (probeOne net node).name = node.name ∧
    (probeOne net node).ip = node.ip ∧
    (probeOne net node).lat = node.lat ∧
    (probeOne net node).lng = node.lng ∧
    (probeOne net node).region = node.region ∧
    (probeOne net node).extra = node.extra ∧
    (probeOne net node).status = checkServerStatus (net node.ip) :=
  ⟨rfl, rfl, rfl, rfl, rfl, rfl, rfl, rfl⟩

/- ===== Diagnostics dispatcher: src/app/api/tools/route.ts ===== -/

/-- The idle timeout `socket.setTimeout(2000)` shared by the ping branch's
`checkPort` helper and the port branch's inline probe. -/
def checkPortTimeoutMs : Nat := 2000

/-- Terminal network event of one 2000 ms-bounded TCP attempt, relative to
that attempt's own start instant: the `connect` event fires `ms`
milliseconds after the attempt begins, or the `error` event fires after
`ms` milliseconds with message `msg`, or nothing ever arrives (`silent`).
An event arriving at or after the 2000 ms idle deadline is preempted by
the timer. -/
inductive PortEvent where
  | connectAt (ms : Nat)
  | errorAt (ms : Nat) (msg : String)
  | silent
  deriving DecidableEq, Repr

/-- `checkPort` from the ping branch: `start = Date.now()` at attempt entry,
`socket.setTimeout(2000)`; the `connect` handler destroys the socket and
resolves `Date.now() - start` (the attempt's own elapsed time); the
`timeout` handler destroys the socket and rejects `Error('Timeout')`; the
`error` handler destroys the socket and rejects the error. -/
def checkPort : PortEvent → Except String Nat
  | .connectAt ms => if ms < checkPortTimeoutMs then .ok ms else .error "Timeout"
  | .errorAt ms msg => if ms < checkPortTimeoutMs then .error msg else .error "Timeout"
  | .silent => .error "Timeout"

/-- Result line of the ping branch when the port-80 attempt resolves. -/
def pingAliveLine80 (target : String) (d : Nat) : String :=
  "Target " ++ target ++ " is ALIVE (Port 80). Latency: " ++ toString d ++ "ms"

/-- Result line of the ping branch when the port-80 attempt rejects and the
port-443 attempt resolves. -/
def pingAliveLine443 (target : String) (d : Nat) : String :=
  "Target " ++ target ++ " is ALIVE (Port 443). Latency: " ++ toString d ++ "ms"

/-- Result line of the ping branch when both attempts reject. -/
def pingUnreachableLine (target : String) : String :=
  "Target " ++ target ++ " unreachable (Ports 80/443 closed or timeout)."

/-- The ping branch: `await checkPort(target, 80)` inside the inner try; on
its rejection (for any reason) the catch runs `await checkPort(target, 443)`;
if that rejects too the outer catch reports both ports closed, with no
latency. `ev80` and `ev443` are the network events of the two attempts,
each relative to its own start. -/
def pingCheck (target : String) (ev80 ev443 : PortEvent) : String :=
  match checkPort ev80 with
  | .ok d => pingAliveLine80 target d
  | .error _ =>
    match checkPort ev443 with
    | .ok d => pingAliveLine443 target d
    | .error _ => pingUnreachableLine target

/-- JavaScript `port || 80` on the request's optional numeric port field:
`undefined`/`null` and `0` are falsy and fall back to 80. -/
def defaultedPort : Option Nat → Nat
  | none => 80
  | some 0 => 80
  | some p => p

/-- The port branch's inline probe: same socket wiring as `checkPort`
(2000 ms idle timer, `Timeout` rejection, error rejection, destroy on all
three handlers) except that the `connect` handler resolves `true` instead
of a duration. -/
def portProbe : PortEvent → Except String Bool
  | .connectAt ms => if ms < checkPortTimeoutMs then .ok true else .error "Timeout"
  | .errorAt ms msg => if ms < checkPortTimeoutMs then .error msg else .error "Timeout"
  | .silent => .error "Timeout"

/-- Success line of the port branch. -/
def portOpenLine (targetPort : Nat) (target : String) : String :=
  "Port " ++ toString targetPort ++ " on " ++ target ++ " is " ++ "OPEN."

/-- Failure line of the port branch, embedding the rejection's message. -/
def portClosedLine (targetPort : Nat) (target : String) (msg : String) : String :=
  "Port " ++ toString targetPort ++ " on " ++ target ++ " is " ++
    ("CLOSED/FILTERED (" ++ (msg ++ ")."))

/-- The port branch: `targetPort = port || 80`, one probe, `OPEN` on
resolution and `CLOSED/FILTERED (<error message>)` on rejection. -/
def portCheck (target : String) (port : Option Nat) (ev : PortEvent) : String :=
  match portProbe ev with
  | .ok _ => portOpenLine (defaultedPort port) target
  | .error msg => portClosedLine (defaultedPort port) target msg

/-- Peer certificate data the ssl branch reads: `issuer.O`, the parsed
`valid_to` instant in epoch milliseconds, and the rendering
`validTo.toDateString()` (opaque here). A peer presenting no usable
certificate (`!cert || Object.keys(cert).length === 0`) is `none`. -/
structure SslCert where
  issuerO : String
  validToMs : Int
  validToDateString : String
  deriving DecidableEq, Repr

/-- Terminal event of the ssl branch's TLS attempt: the handshake callback
runs (with the peer's certificate, if any), or the socket errors, or the
3000 ms timer fires first. -/
inductive SslEvent where
  | handshakeDone (cert : Option SslCert)
  | socketError (msg : String)
  | timedOut
  deriving DecidableEq, Repr

/-- The `tls.connect` timeout `socket.setTimeout(3000, ...)`. -/
def sslTimeoutMs : Nat := 3000

/-- Outcome of the ssl branch's inner promise together with whether any
teardown (`socket.end()` or `socket.destroy()`) ran on that path before
the promise settled. -/
structure SslRun where
  settled : Except String String
  socketClosed : Bool
  deriving Repr

/-- `Math.ceil` of the real quotient `a / b` for positive `b`, on exact
integers: `⌈a/b⌉ = -⌊-a/b⌋`, with `Int` division (Euclidean, hence floor
for a positive divisor) supplying the inner floor. -/
def jsCeilDiv (a b : Int) : Int := -((-a) / b)

/-- Milliseconds per day, `1000 * 60 * 60 * 24`, the divisor of the ssl
branch's days-remaining computation. -/
def msPerDay : Int := 1000 * 60 * 60 * 24

/-- `Math.ceil((validTo.getTime() - Date.now()) / (1000 * 60 * 60 * 24))`. -/
def daysRemaining (validToMs nowMs : Int) : Int :=
  jsCeilDiv (validToMs - nowMs) msPerDay

/-- Success line of the ssl branch. -/
def sslSummaryLine (target : String) (cert : SslCert) (nowMs : Int) : String :=
  "SSL Certificate for " ++ target ++ ":\n- Issuer: " ++ cert.issuerO ++
    "\n- Valid To: " ++ cert.validToDateString ++ "\n- Days Remaining: " ++
    toString (daysRemaining cert.validToMs nowMs)

/-- The ssl branch's inner promise, path by path from the source:
* handshake callback with an absent/empty certificate — `reject(new
  Error('No certificate found')); return;` with no `end`/`destroy` call,
  so the socket stays open;
* handshake callback with a certificate — `socket.end()` then resolve the
  summary line;
* `error` handler — `reject(err)` with no teardown call of its own;
* timeout — `socket.destroy()` then `reject(new Error('Timeout connecting
  to SSL'))`. -/
def sslAttempt (target : String) (ev : SslEvent) (nowMs : Int) : SslRun :=
  match ev with
  | .handshakeDone none => ⟨.error "No certificate found", false⟩
  | .handshakeDone (some cert) => ⟨.ok (sslSummaryLine target cert nowMs), true⟩
  | .socketError msg => ⟨.error msg, false⟩
  | .timedOut => ⟨.error "Timeout connecting to SSL", true⟩

/-- The ssl branch's result string: the resolved summary, or
`SSL Check Failed: <message>` from the surrounding catch. -/
def sslCheck (target : String) (ev : SslEvent) (nowMs : Int) : String :=
  match (sslAttempt target ev nowMs).settled with
  | .ok line => line
  | .error msg => "SSL Check Failed: " ++ msg

/-- Outcome of `dns.resolve4` in the nslookup branch. -/
inductive DnsEvent where
  | resolved (addrs : List String)
  | failed (msg : String)
  deriving DecidableEq, Repr

/-- The nslookup branch: join the resolved IPv4 addresses with `, `, or
report the resolver error's message; the raw exception never escapes. -/
def nslookupCheck (target : String) (ev : DnsEvent) : String :=
  match ev with
  | .resolved addrs =>
    "DNS Records for " ++ target ++ ": " ++ String.intercalate ", " addrs
  | .failed msg => "DNS Error: " ++ msg

/-- Body of a well-formed JSON request to the tools route, as destructured
by `const { type, target, port } = await request.json()`. A missing
`target` is `none`; an empty string target is as falsy as a missing one. -/
structure ToolsRequest where
  reqType : Option String
  target : Option String
  port : Option Nat
  deriving DecidableEq, Repr

/-- A parsed-or-malformed request body: `request.json()` either yields a
body or throws into the outer catch. -/
inductive ParsedBody where
  | malformed
  | ok (body : ToolsRequest)
  deriving DecidableEq, Repr

/-- JavaScript truthiness of `!target` for the string field. -/
def falsyTarget : Option String → Bool
  | none => true
  | some s => s.isEmpty

/-- The network behaviour one POST invocation observes: the DNS outcome,
the ping branch's two attempts, the port branch's attempt and the ssl
branch's TLS event, plus the wall clock read by `Date.now()`. -/
structure NetEnv where
  dns : DnsEvent
  ev80 : PortEvent
  ev443 : PortEvent
  evPort : PortEvent
  ssl : SslEvent
  nowMs : Int

/-- A response from the tools route: `NextResponse.json({ result })` is a
200 carrying a result string; `NextResponse.json({ error }, { status })`
carries an error string and an explicit status. -/
inductive RespBody where
  | result (s : String)
  | jsonError (s : String)
  deriving DecidableEq, Repr

structure HttpResponse where
  status : Nat
  body : RespBody
  deriving DecidableEq, Repr

/-- The POST handler of the tools route, top to bottom: a body that fails
to parse reaches the outer catch (500 `Internal Server Error`); a falsy
`target` is 400 `Target is required`; then the strict-equality dispatch on
`type` runs nslookup, ping, port or ssl — each of which always produces a
200 with a result string — and any other `type` is 400
`Invalid tool type`. The handler is a total function: no path raises. -/
def handlePOST (req : ParsedBody) (env : NetEnv) : HttpResponse :=
  match req with
  | .malformed => ⟨500, .jsonError "Internal Server Error"⟩
  | .ok b =>
    if falsyTarget b.target then ⟨400, .jsonError "Target is required"⟩
    else
      let target := b.target.getD ""
      if b.reqType = some "nslookup" then
        ⟨200, .result (nslookupCheck target env.dns)⟩
      else if b.reqType = some "ping" then
        ⟨200, .result (pingCheck target env.ev80 env.ev443)⟩
      else if b.reqType = some "port" then
        ⟨200, .result (portCheck target b.port env.evPort)⟩
      else if b.reqType = some "ssl" then
        ⟨200, .result (sslCheck target env.ssl env.nowMs)⟩
      else ⟨400, .jsonError "Invalid tool type"⟩

/- ===== Helper lemmas on string concatenation ===== -/

/-- Left-cancellation of string concatenation. -/
theorem sapp_left_cancel {a b c : String} (h : a ++ b = a ++ c) : b = c := by
  have hd := congrArg String.data h
  simp [String.data_append] at hd
  exact String.ext hd

/-- Right-cancellation of string concatenation. -/
theorem sapp_right_cancel {a b c : String} (h : b ++ a = c ++ a) : b = c := by
  have hd := congrArg String.data h
  simp [String.data_append] at hd
  exact String.ext hd

/-- The ping branch's two success lines never coincide for one target: at
the first position after their common prefix the 443 line reads `4` where
the 80 line reads `8`. -/
theorem pingAlive_443_ne_80 (t : String) (d d' : Nat) :
    pingAliveLine443 t d ≠ pingAliveLine80 t d' := by
  intro h
  simp only [pingAliveLine443, pingAliveLine80] at h
  rw [show (" is ALIVE (Port 443). Latency: " : String) =
        " is ALIVE (Port " ++ "443). Latency: " from rfl,
      show (" is ALIVE (Port 80). Latency: " : String) =
        " is ALIVE (Port " ++ "80). Latency: " from rfl] at h
  simp only [String.append_assoc] at h
  have h1 := sapp_left_cancel h
  have h2 := sapp_left_cancel h1
  have h3 := sapp_left_cancel h2
  have h4 := congrArg String.data h3
  simp only [String.data_append] at h4
  simp at h4

/- ===== Theorems: C3, C10 ===== -/

/-- C3: the ping branch tries port 80 first under the fixed 2000 ms
timeout — on success it reports the 80 line and never consults the 443
attempt; only when the 80 attempt rejects (for any reason) does it try
port 443 under the same 2000 ms timeout, reporting the answering port 443
with that attempt's measured latency and never the port-80 line; when
both reject it reports both ports closed, with no latency. -/
theorem ping_fallback_order (t : String) (ev80 ev443 ev443' : PortEvent) :
    checkPortTimeoutMs = 2000 ∧
    (∀ d, checkPort ev80 = .ok d →
      pingCheck t ev80 ev443 = pingAliveLine80 t d ∧
      pingCheck t ev80 ev443 = pingCheck t ev80 ev443') ∧
    (∀ e d, checkPort ev80 = .error e → checkPort ev443 = .ok d →
      pingCheck t ev80 ev443 = pingAliveLine443 t d ∧
      ∀ d', pingCheck t ev80 ev443 ≠ pingAliveLine80 t d') ∧
    (∀ e e', checkPort ev80 = .error e → checkPort ev443 = .error e' →
      pingCheck t ev80 ev443 = pingUnreachableLine t) := by
  refine ⟨rfl, ?_, ?_, ?_⟩
  · intro d hd
    exact ⟨by simp [pingCheck, hd], by simp [pingCheck, hd]⟩
  · intro e d h80 h443
    refine ⟨by simp [pingCheck, h80, h443], fun d' => ?_⟩
    simpa [pingCheck, h80, h443] using pingAlive_443_ne_80 t d d'
  · intro e e' h80 h443
    simp [pingCheck, h80, h443]

/-- Witness for C3: port 80 refused after 3 ms, port 443 open and
answering after 42 ms — the result is the 443 line with latency 42 and is
not an 80 line. -/
theorem ping_fallback_order_witness :
    pingCheck "edge.example.com" (.errorAt 3 "ECONNREFUSED") (.connectAt 42) =
      pingAliveLine443 "edge.example.com" 42 ∧
    pingCheck "edge.example.com" (.errorAt 3 "ECONNREFUSED") (.connectAt 42) ≠
      pingAliveLine80 "edge.example.com" 42 := by
  have h :=
    (ping_fallback_order "edge.example.com" (.errorAt 3 "ECONNREFUSED")
        (.connectAt 42) .silent).2.2.1 "ECONNREFUSED" 42 rfl rfl
  exact ⟨h.1, h.2 42⟩

/-- C10: when the port-80 attempt fails and the port-443 attempt connects
`d` ms after its own start, the reported latency is exactly `d` — the
`checkPort` helper re-reads `start = Date.now()` on entry, so the time
burnt by the failed 80 attempt (up to its full 2000 ms timeout) never
enters the figure; indeed the result is the same whichever way, and
however slowly, the 80 attempt failed. -/
theorem ping_latency_excludes_port80_time (t : String) (ev80 ev80' : PortEvent)
    (d : Nat) (h80 : ∃ e, checkPort ev80 = .error e)
    (h80' : ∃ e, checkPort ev80' = .error e) (hd : d < checkPortTimeoutMs) :
    pingCheck t ev80 (.connectAt d) = pingAliveLine443 t d ∧
    ∀ ev443, pingCheck t ev80 ev443 = pingCheck t ev80' ev443 := by
  obtain ⟨e, h80⟩ := h80
  obtain ⟨e', h80'⟩ := h80'
  have hc : checkPort (.connectAt d) = .ok d := by simp [checkPort, hd]
  constructor
  · simp [pingCheck, h80, hc]
  · intro ev443
    simp [pingCheck, h80, h80']

/-- Witness for C10: an 80 attempt that burns its whole 2000 ms timeout
and one refused after 1999 ms yield the same report, and a 443 connect
42 ms after its own start is reported as latency 42. -/
theorem ping_latency_excludes_port80_time_witness :
    pingCheck "api.example.com" .silent (.connectAt 42) =
      pingAliveLine443 "api.example.com" 42 ∧
    pingCheck "api.example.com" .silent (.connectAt 7) =
      pingCheck "api.example.com" (.errorAt 1999 "EHOSTUNREACH") (.connectAt 7) := by
  have h :=
    ping_latency_excludes_port80_time "api.example.com" .silent
      (.errorAt 1999 "EHOSTUNREACH") 42 ⟨"Timeout", rfl⟩ ⟨"EHOSTUNREACH", rfl⟩
      (by decide)
  exact ⟨h.1, h.2 (.connectAt 7)⟩

/- ===== Theorems: C4, C5, C6, C7, C8 ===== -/

/-- C4 counterexample: a request that does carry a target but names an
unrecognised tool type falls through the dispatch to the 400
`Invalid tool type` response — so 400 is not reserved for a missing
target. -/
theorem POST_400_with_target_present :
    handlePOST (.ok ⟨some "traceroute", some "example.com", none⟩)
        ⟨.failed "NXDOMAIN", .silent, .silent, .silent, .timedOut, 0⟩ =
      ⟨400, .jsonError "Invalid tool type"⟩ := rfl

/-- C4 amended: the handler answers 400 exactly when the target is missing
(or empty) or the tool type is not one of nslookup, ping, port, ssl; for
every request carrying a target and a recognised type it answers 200 with
a descriptive result string whatever the network outcome — domain
failures included — and a body that fails to parse gets the 500, so no
path raises to the caller. -/
theorem POST_status_amended (b : ToolsRequest) (env : NetEnv) :
    ((handlePOST (.ok b) env).status = 400 ↔
      falsyTarget b.target = true ∨
        (b.reqType ≠ some "nslookup" ∧ b.reqType ≠ some "ping" ∧
          b.reqType ≠ some "port" ∧ b.reqType ≠ some "ssl")) ∧
    (falsyTarget b.target = false →
      (b.reqType = some "nslookup" ∨ b.reqType = some "ping" ∨
        b.reqType = some "port" ∨ b.reqType = some "ssl") →
      (handlePOST (.ok b) env).status = 200 ∧
        ∃ s, (handlePOST (.ok b) env).body = .result s) ∧
    handlePOST .malformed env = ⟨500, .jsonError "Internal Server Error"⟩ := by
  refine ⟨?_, ?_, rfl⟩
  · unfold handlePOST
    dsimp only
    split_ifs with h1 h2 h3 h4 h5 <;> simp_all
  · intro hft hkind
    unfold handlePOST
    rcases hkind with h | h | h | h <;> simp [hft, h]
  
/-- Witness for C4 amended: a ping request with a target present answers
200 and a result body. -/
theorem POST_status_amended_witness :
    (handlePOST (.ok ⟨some "ping", some "example.com", none⟩)
        ⟨.failed "NXDOMAIN", .silent, .silent, .silent, .timedOut, 0⟩).status = 200 ∧
    ∃ s,
      (handlePOST (.ok ⟨some "ping", some "example.com", none⟩)
          ⟨.failed "NXDOMAIN", .silent, .silent, .silent, .timedOut, 0⟩).body =
        .result s :=
  (POST_status_amended ⟨some "ping", some "example.com", none⟩
      ⟨.failed "NXDOMAIN", .silent, .silent, .silent, .timedOut, 0⟩).2.1
    rfl (Or.inr (Or.inl rfl))

/-- C5 (claim right, code wrong): path-by-path teardown of the ssl
branch's socket. The success path closes it (`socket.end()`) and the
timeout path closes it (`socket.destroy()`), but the handshake-succeeded,
certificate-absent path rejects with `No certificate found` and returns
with the socket still open, and the `error` handler rejects without any
teardown call of its own — so not every exit path releases the socket. -/
theorem ssl_socket_release_by_path (t : String) (cert : SslCert) (m : String)
    (nowMs : Int) :
    (sslAttempt t (.handshakeDone (some cert)) nowMs).socketClosed = true ∧
    (sslAttempt t .timedOut nowMs).socketClosed = true ∧
    (sslAttempt t (.handshakeDone none) nowMs).socketClosed = false ∧
    (sslAttempt t (.handshakeDone none) nowMs).settled =
      .error "No certificate found" ∧
    (sslAttempt t (.socketError m) nowMs).socketClosed = false :=
  ⟨rfl, rfl, rfl, rfl, rfl⟩

/-- C6 counterexample: a certificate one millisecond past expiry —
`validTo = 999`, `now = 1000` — gets days-remaining 0, not a negative
integer, because `Math.ceil` rounds the tiny negative quotient up to
zero. -/
theorem daysRemaining_just_expired_is_zero :
    (999 : Int) < 1000 ∧ daysRemaining 999 1000 = 0 := ⟨by decide, by decide⟩

/-- C6 amended: days-remaining is the exact ceiling of
`(notAfter - now) / 86400000` — characterised by
`msPerDay * (d - 1) < notAfter - now ≤ msPerDay * d` — so it is negative
exactly for certificates expired by at least one full day, zero (by
genuine ceiling, not clamping) for ones expired by less than a day, and
positive while the certificate is still valid. -/
theorem daysRemaining_ceil_amended (validToMs nowMs : Int) :
    msPerDay * (daysRemaining validToMs nowMs - 1) < validToMs - nowMs ∧
    validToMs - nowMs ≤ msPerDay * daysRemaining validToMs nowMs ∧
    (validToMs + msPerDay ≤ nowMs → daysRemaining validToMs nowMs < 0) ∧
    (nowMs - msPerDay < validToMs → validToMs ≤ nowMs →
      daysRemaining validToMs nowMs = 0) ∧
    (nowMs < validToMs → 0 < daysRemaining validToMs nowMs) := by
  unfold daysRemaining jsCeilDiv msPerDay
  rw [show (1000 * 60 * 60 * 24 : Int) = 86400000 from rfl]
  omega

/-- Witness for C6 amended: a certificate two full days past expiry gets
a negative days-remaining. -/
theorem daysRemaining_ceil_amended_witness :
    daysRemaining 0 172800000 < 0 :=
  (daysRemaining_ceil_amended 0 172800000).2.2.1 (by decide)

/-- C7: when the handshake completes but the peer presents no usable
certificate, the inner promise rejects (no success result exists) and the
branch's answer is the failure line `SSL Check Failed: No certificate
found`, which contains `No certificate found`. -/
theorem ssl_no_cert_is_failure (t : String) (nowMs : Int) :
    (sslAttempt t (.handshakeDone none) nowMs).settled =
      .error "No certificate found" ∧
    sslCheck t (.handshakeDone none) nowMs =
      "SSL Check Failed: " ++ "No certificate found" ∧
    ∃ pre post,
      sslCheck t (.handshakeDone none) nowMs = pre ++ ("No certificate found" ++ post) :=
  ⟨rfl, rfl, "SSL Check Failed: ", "", rfl⟩

/-- C8: the port branch probes port 80 whenever the request's port is
unset or falsy; a resolved probe yields the `OPEN` line, and every
rejection yields the `CLOSED/FILTERED (...)` line with the rejection's
message embedded verbatim — and the line determines the message, so
timeout (`Timeout`), refusal and other errors stay distinguishable. -/
theorem port_check_behaviour (t : String) (p : Option Nat) (ev : PortEvent)
    (m₁ m₂ : String) :
    (defaultedPort none = 80 ∧ defaultedPort (some 0) = 80) ∧
    (∀ b, portProbe ev = .ok b →
      ∃ pre post, portCheck t p ev = pre ++ ("OPEN" ++ post)) ∧
    (∀ m, portProbe ev = .error m →
      portCheck t p ev = portClosedLine (defaultedPort p) t m ∧
      ∃ pre post, portCheck t p ev = pre ++ ("CLOSED/FILTERED" ++ post)) ∧
    portProbe .silent = .error "Timeout" ∧
    (portClosedLine (defaultedPort p) t m₁ = portClosedLine (defaultedPort p) t m₂ →
      m₁ = m₂) := by
  refine ⟨⟨rfl, rfl⟩, ?_, ?_, rfl, ?_⟩
  · intro b hb
    exact ⟨"Port " ++ toString (defaultedPort p) ++ " on " ++ t ++ " is ", ".",
      by simp [portCheck, hb, portOpenLine]⟩
  · intro m hm
    refine ⟨by simp [portCheck, hm], ?_⟩
    refine ⟨"Port " ++ toString (defaultedPort p) ++ " on " ++ t ++ " is ",
      " (" ++ (m ++ ")."), ?_⟩
    simp only [portCheck, hm]
    rfl
  · intro h
    unfold portClosedLine at h
    exact sapp_right_cancel (sapp_left_cancel (sapp_left_cancel h))

/-- Witness for C8: a falsy port 0 defaults to 80; a refusal after 5 ms is
reported as `CLOSED/FILTERED (ECONNREFUSED)`. -/
theorem port_check_behaviour_witness :
    portCheck "db.internal" (some 0) (.errorAt 5 "ECONNREFUSED") =
      portClosedLine 80 "db.internal" "ECONNREFUSED" ∧
    (portClosedLine 80 "db.internal" "Timeout" =
        portClosedLine 80 "db.internal" "ECONNREFUSED" →
      "Timeout" = "ECONNREFUSED") := by
  have h :=
    port_check_behaviour "db.internal" (some 0) (.errorAt 5 "ECONNREFUSED")
      "Timeout" "ECONNREFUSED"
  exact ⟨(h.2.2.1 "ECONNREFUSED" rfl).1, h.2.2.2.2⟩
